import Mathlib

/-!
Verification of the TruthByte Daily Challenge Engine.

This file is a shallow embedding, in Lean 4, of the core of the TruthByte
backend: the daily scoring and rank computation, the per-(user, date)
completion ledger, the consecutive-day streak walk, the deterministic
daily sampler and the date-based seed derivation.  The definitions are
translated from `src/backend/lambda/submit_daily_answers.py` and
`src/backend/lambda/fetch_daily_questions.py`; Python floats are modelled
as exact rationals, DynamoDB tables as explicit state records, and the
ambient clock as an explicit parameter.
-/

/-- Letter rank awarded for a daily score
(`submit_daily_answers.py`, `calculate_daily_score`, lines 50-60). -/
inductive Rank where
  | S
  | A
  | B
  | C
  | D
deriving DecidableEq, Repr

/-- One submitted answer, the element shape of the `answers` list in the
request body of `submit_daily_answers.py` (lines 74-85). -/
structure Answer where
  question_id : String
  answer : Bool
  timestamp : Nat
deriving DecidableEq, Repr

/-- Result record of `calculate_daily_score`
(`submit_daily_answers.py`, lines 62-68).  The Python float
`score_percentage` is modelled as an exact rational. -/
structure ScoreData where
  correct_count : Nat
  total_questions : Nat
  score_percentage : ℚ
  rank : Rank
  streak_eligible : Bool
deriving DecidableEq, Repr

/-- Correct-answer accumulation loop of `calculate_daily_score`
(`submit_daily_answers.py`, lines 34-46): for each answer, the ground
truth is `questions_data.get(question_id, {}).get('answer', False)` -- an
absent question id defaults to `False` -- and `correct_count` is
incremented when the submitted boolean equals that ground truth.
`questions_data` is modelled as a partial map from question id to the
stored correct answer. -/
def countCorrect (answers : List Answer) (questions_data : String → Option Bool) : Nat :=
  answers.foldl
    (fun acc a => if a.answer = (questions_data a.question_id).getD false then acc + 1 else acc) 0

/-- Scoring and rank computation, translated from `calculate_daily_score`
(`submit_daily_answers.py`, lines 32-68). -/
def calculate_daily_score (answers : List Answer) (questions_data : String → Option Bool) :
    ScoreData :=
  let correct_count := countCorrect answers questions_data
  let total_questions := answers.length
  let score_percentage : ℚ :=
    if total_questions > 0 then (correct_count : ℚ) / (total_questions : ℚ) * 100 else 0
  let rank : Rank :=
    if score_percentage = 100 then .S
    else if score_percentage ≥ 80 then .A
    else if score_percentage ≥ 70 then .B
    else if score_percentage ≥ 60 then .C
    else .D
  { correct_count := correct_count
    total_questions := total_questions
    score_percentage := score_percentage
    rank := rank
    streak_eligible := decide (score_percentage ≥ 70) }

/-- Rank thresholds exactly as the specification words them: `pct == 100 → S`,
`pct >= 80 → A`, `pct >= 70 → B`, `pct >= 60 → C`, else `D` (inclusive
lower bounds, tried in that order). -/
def rankOfPct (pct : ℚ) : Rank :=
  if pct = 100 then .S
  else if pct ≥ 80 then .A
  else if pct ≥ 70 then .B
  else if pct ≥ 60 then .C
  else .D

/-- Percentage formula exactly as the specification words it:
`pct = correct_count / total * 100`, and `0` when `total == 0`. -/
def pctOf (correct_count total : Nat) : ℚ :=
  if total = 0 then 0 else (correct_count : ℚ) / (total : ℚ) * 100

/-- Calendar date, the parsed form of the `YYYY-MM-DD` strings the source
manipulates with `datetime.strptime`/`strftime`; valid dates and their
strings are in bijection, so the embedding keys progress by the parsed
date. -/
structure Date where
  year : Nat
  month : Nat
  day : Nat
deriving DecidableEq, Repr

/-- Gregorian leap-year rule, as implemented by Python's `datetime`. -/
def isLeapYear (y : Nat) : Bool :=
  (y % 4 = 0 && y % 100 ≠ 0) || y % 400 = 0

/-- Days in a month of the proleptic Gregorian calendar, as implemented by
Python's `datetime`. -/
def daysInMonth (y m : Nat) : Nat :=
  if m = 2 then (if isLeapYear y then 29 else 28)
  else if m = 4 ∨ m = 6 ∨ m = 9 ∨ m = 11 then 30
  else 31

/-- Calendar-day subtraction of one day, the embedding of
`check_date - timedelta(days=1)` used by both streak loops. -/
def prevDay (d : Date) : Date :=
  if d.day > 1 then ⟨d.year, d.month, d.day - 1⟩
  else if d.month > 1 then ⟨d.year, d.month - 1, daysInMonth d.year (d.month - 1)⟩
  else ⟨d.year - 1, 12, 31⟩

/-- Iterated `prevDay`: `subDays n d` is the date `n` calendar days before
`d`.  Defined so that `subDays (n+1) d = subDays n (prevDay d)`. -/
def subDays : Nat → Date → Date
  | 0, d => d
  | n + 1, d => subDays n (prevDay d)

/-- Body of the backward streak walk shared by
`calculate_user_streak` (`fetch_daily_questions.py`, lines 210-223) and the
inline loop of `submit_daily_answers.py` (lines 242-254):

    while True:
        if completed(check_date): count += 1; check_date -= 1 day
        else: break
        if count > 365: break

The Python loop is a `while True`; here it is written with a fuel
argument so that the recursion is structural.  Starting from `count = 0`
with `fuel = 366` the invariant `count + fuel = 366` holds at every
recursive call, the cap test `count + 1 > 365` fires before `fuel`
can reach `0`, and `streakLoop_fuel_congr` below proves that any fuel of
at least `366 - count` yields the same value -- so the fuel is a proof
device, not a semantic change to the source loop. -/
def streakLoop (completedOn : Date → Bool) : Nat → Date → Nat → Nat
  | 0, _, count => count
  | fuel + 1, check_date, count =>
    if completedOn check_date then
      if count + 1 > 365 then count + 1
      else streakLoop completedOn fuel (prevDay check_date) (count + 1)
    else count

/-- Current-streak value of the backward walk starting at `as_of`,
with the source's initial `count = 0`. -/
def streakCurrent (completedOn : Date → Bool) (as_of : Date) : Nat :=
  streakLoop completedOn 366 as_of 0

/-- Per-(user, date) progress record written by `submit_daily_answers.py`
(lines 230-239) into the user's `daily_progress` map. -/
structure DayRecord where
  completed : Bool
  score : ℚ
  rank : Rank
  correct_count : Nat
  total_questions : Nat
  answers : List Answer
  completed_at : Nat
  streak_eligible : Bool
deriving DecidableEq, Repr

/-- Completion lookup `daily_progress.get(date, {}).get('completed', False)`:
an absent record, like a record with `completed = false`, reads as not
completed. -/
def completedOn (daily_progress : Date → Option DayRecord) (d : Date) : Bool :=
  ((daily_progress d).map DayRecord.completed).getD false

/-- User record stored in the users table: the `daily_progress` map plus the
streak fields written by `submit_daily_answers.py` (lines 261-278).
`last_active` is an abstract timestamp. -/
structure UserRecord where
  daily_progress : Date → Option DayRecord
  best_daily_streak : Nat
  current_daily_streak : Nat
  total_daily_games : Nat
  last_active : Nat

/-- Row written to the answers table for each submitted answer
(`submit_daily_answers.py`, lines 204-218). -/
structure AnswerItem where
  user_id : String
  question_id : String
  answer : Bool
  timestamp : Nat
  mode : String
  date : Date
  correct_answer : Bool
  is_correct : Bool
deriving DecidableEq, Repr

/-- Parsed submission request body: the `answers` list and the (defaulted)
`date` field (`submit_daily_answers.py`, lines 150-151). -/
structure SubmitReq where
  answers : List Answer
  date : Date
deriving DecidableEq, Repr

/-- Stored state the submit handler reads and writes: the caller's user
record and the answers table. -/
structure SubmitState where
  user : UserRecord
  answers_table : List AnswerItem

/-- Outcome of one submit invocation: the success payload of lines 288-294,
the empty-answers rejection of lines 153-163, or the already-completed
rejection of lines 170-180 of `submit_daily_answers.py`. -/
inductive SubmitResult where
  | ok (score_data : ScoreData) (streak_count : Nat) (best_streak : Nat) (date : Date)
  | noAnswers
  | alreadyCompleted
deriving DecidableEq, Repr

/-- Read phase of the submit handler: `users_table.get_item` (line 166)
returns a snapshot of the caller's user record. -/
def submit_read (st : SubmitState) : UserRecord :=
  st.user

/-- Write phase of the submit handler, translated from
`submit_daily_answers.py` lines 165-295, operating on the snapshot taken
by `submit_read`:
* reject with `alreadyCompleted` if the snapshot's `daily_progress` marks
  `req.date` completed (lines 170-180);
* score the answers (line 200), append one row per answer to the answers
  table (lines 202-226);
* extend the snapshot's `daily_progress` with the new completed record
  (lines 229-239), rerun the streak walk on it starting at the submitted
  date (lines 241-254), take `best = max(stored best, streak)`
  (lines 256-258);
* unconditionally overwrite the user record (`update_item` with no
  condition expression, lines 260-278); `total_daily_games` uses
  `if_not_exists(total_daily_games, 0) + 1`, which reads the value stored
  at write time, hence `st.user`, not the snapshot. -/
def submit_write (questions_data : String → Option Bool) (user_id : String) (now : Nat)
    (snapshot : UserRecord) (req : SubmitReq) (st : SubmitState) :
    SubmitResult × SubmitState :=
  if completedOn snapshot.daily_progress req.date then (.alreadyCompleted, st)
  else
    let score_data := calculate_daily_score req.answers questions_data
    let items := req.answers.map (fun a =>
      { user_id := user_id
        question_id := a.question_id
        answer := a.answer
        timestamp := a.timestamp
        mode := "daily"
        date := req.date
        correct_answer := (questions_data a.question_id).getD false
        is_correct := decide (a.answer = (questions_data a.question_id).getD false) })
    let new_record : DayRecord :=
      { completed := true
        score := score_data.score_percentage
        rank := score_data.rank
        correct_count := score_data.correct_count
        total_questions := score_data.total_questions
        answers := req.answers
        completed_at := now
        streak_eligible := score_data.streak_eligible }
    let dp := fun d => if d = req.date then some new_record else snapshot.daily_progress d
    let streak_count := streakCurrent (completedOn dp) req.date
    let best_streak := max snapshot.best_daily_streak streak_count
    let user : UserRecord :=
      { daily_progress := dp
        best_daily_streak := best_streak
        current_daily_streak := streak_count
        total_daily_games := st.user.total_daily_games + 1
        last_active := now }
    (.ok score_data streak_count best_streak req.date,
     { user := user, answers_table := st.answers_table ++ items })

/-- Sequential submit handler: the empty-answers guard (lines 153-163)
runs before the read, then the read and write phases run back to back. -/
def submit_daily (questions_data : String → Option Bool) (user_id : String) (now : Nat)
    (req : SubmitReq) (st : SubmitState) : SubmitResult × SubmitState :=
  if req.answers.isEmpty then (.noAnswers, st)
  else submit_write questions_data user_id now (submit_read st) req st

/-- Interleaved execution of two submit invocations under the schedule
read-1, read-2, write-1, write-2.  Each invocation performs the same
steps as `submit_daily`; the schedule is admitted by the source because
the completion check reads the `get_item` snapshot and the `update_item`
carries no condition expression, so nothing orders one invocation's read
after the other's write. -/
def submit_interleaved (questions_data : String → Option Bool) (user_id : String) (now : Nat)
    (req1 req2 : SubmitReq) (st : SubmitState) :
    (SubmitResult × SubmitResult) × SubmitState :=
  if req1.answers.isEmpty then
    let r2 := submit_daily questions_data user_id now req2 st
    ((.noAnswers, r2.1), r2.2)
  else if req2.answers.isEmpty then
    let r1 := submit_daily questions_data user_id now req1 st
    ((r1.1, .noAnswers), r1.2)
  else
    let snap1 := submit_read st
    let snap2 := submit_read st
    let r1 := submit_write questions_data user_id now snap1 req1 st
    let r2 := submit_write questions_data user_id now snap2 req2 r1.2
    ((r1.1, r2.1), r2.2)

/-- Streak summary returned by `calculate_user_streak`
(`fetch_daily_questions.py`, lines 196-229). -/
structure StreakValue where
  current_streak : Nat
  best_streak : Nat
  today_completed : Bool
deriving DecidableEq, Repr

/-- Streak computation of `fetch_daily_questions.py`, lines 196-229: walk
backward from `today` over the stored `daily_progress`, then report
`best = max(stored best_daily_streak, current)` and whether today is
completed. -/
def calculate_user_streak (user : UserRecord) (today : Date) : StreakValue :=
  let current_streak := streakCurrent (completedOn user.daily_progress) today
  { current_streak := current_streak
    best_streak := max user.best_daily_streak current_streak
    today_completed := completedOn user.daily_progress today }

/-- Modelled from the spec: the pseudo-random step of the Python standard
library generator that `deterministic_sample`
(`fetch_daily_questions.py`, lines 38-42) obtains from
`random.Random(seed)`.  The standard library generator is outside this
repository; per the specification's contract it is an arbitrary but fixed
deterministic PRNG algorithm seeded exactly once per call, so it is
modelled by a concrete 64-bit linear-congruential step. -/
def lcgStep (s : Nat) : Nat :=
  (6364136223846793005 * s + 1442695040888963407) % (2 ^ 64)

/-- Modelled from the spec: the selection loop of the Python standard
library `random.Random.sample(population, k)`, which this repository
calls but does not define.  Per its documented contract it returns `k`
elements chosen from the population without replacement (distinct
positions), deterministically for a seeded generator: each step draws an
index below the number of remaining elements, emits that element and
removes it from the remaining pool. -/
def randomSampleAux {α : Type} : Nat → List α → Nat → List α
  | 0, _, _ => []
  | k + 1, remaining, s =>
    match h : remaining.length with
    | 0 => []
    | m + 1 =>
      let j := lcgStep s % remaining.length
      have hj : j < remaining.length := Nat.mod_lt _ (by omega)
      remaining.get ⟨j, hj⟩ :: randomSampleAux k (remaining.eraseIdx j) (lcgStep s)

/-- Deterministic sampler of `fetch_daily_questions.py`, lines 38-42:
`random.Random(seed).sample(items, min(sample_size, len(items)))`, with
the standard-library sampler modelled by `randomSampleAux` seeded with
`seed`. -/
def deterministic_sample {α : Type} (items : List α) (sample_size : Nat) (seed : Nat) :
    List α :=
  randomSampleAux (min sample_size items.length) items seed

/-- Byte sequence of an ASCII string: for the namespace and date strings
hashed by `get_daily_seed`, each character's code point is its UTF-8
byte. -/
def strBytes (s : String) : List Nat :=
  s.toList.map Char.toNat

/-- 32-bit modular addition used throughout SHA-256. -/
def w32 (n : Nat) : Nat := n % (2 ^ 32)

/-- Right rotation of a 32-bit word by `n` bits. -/
def rotr32 (n x : Nat) : Nat :=
  w32 ((x >>> n) ||| (x <<< (32 - n)))

/-- SHA-256 small sigma-0: `rotr 7 xor rotr 18 xor shr 3`. -/
def ssig0 (x : Nat) : Nat := rotr32 7 x ^^^ rotr32 18 x ^^^ (x >>> 3)

/-- SHA-256 small sigma-1: `rotr 17 xor rotr 19 xor shr 10`. -/
def ssig1 (x : Nat) : Nat := rotr32 17 x ^^^ rotr32 19 x ^^^ (x >>> 10)

/-- SHA-256 big sigma-0: `rotr 2 xor rotr 13 xor rotr 22`. -/
def bsig0 (x : Nat) : Nat := rotr32 2 x ^^^ rotr32 13 x ^^^ rotr32 22 x

/-- SHA-256 big sigma-1: `rotr 6 xor rotr 11 xor rotr 25`. -/
def bsig1 (x : Nat) : Nat := rotr32 6 x ^^^ rotr32 11 x ^^^ rotr32 25 x

/-- SHA-256 choice function. -/
def shaCh (x y z : Nat) : Nat := (x &&& y) ^^^ ((2 ^ 32 - 1 - x) &&& z)

/-- SHA-256 majority function. -/
def shaMaj (x y z : Nat) : Nat := (x &&& y) ^^^ (x &&& z) ^^^ (y &&& z)

/-- SHA-256 round constants (FIPS 180-4). -/
def shaK : List Nat :=
  [ 1116352408, 1899447441, 3049323471, 3921009573, 961987163, 1508970993, 2453635748,
   2870763221, 3624381080, 310598401, 607225278, 1426881987, 1925078388, 2162078206, 2614888103,
   3248222580, 3835390401, 4022224774, 264347078, 604807628, 770255983, 1249150122, 1555081692,
   1996064986, 2554220882, 2821834349, 2952996808, 3210313671, 3336571891, 3584528711,
   113926993, 338241895, 666307205, 773529912, 1294757372, 1396182291, 1695183700, 1986661051,
   2177026350, 2456956037, 2730485921, 2820302411, 3259730800, 3345764771, 3516065817,
   3600352804, 4094571909, 275423344, 430227734, 506948616, 659060556, 883997877, 958139571,
   1322822218, 1537002063, 1747873779, 1955562222, 2024104815, 2227730452, 2361852424,
   2428436474, 2756734187, 3204031479, 3329325298]

/-- SHA-256 initial hash value (FIPS 180-4). -/
def shaH0 : List Nat :=
  [ 1779033703, 3144134277, 1013904242, 2773480762, 1359893119, 2600822924, 528734635,
   1541459225]

/-- SHA-256 padding: append `0x80`, then zeros, then the 64-bit big-endian
bit length, reaching a multiple of 64 bytes. -/
def shaPad (msg : List Nat) : List Nat :=
  let len := msg.length
  let zeros := (64 + 56 - ((len + 1) % 64)) % 64
  let bitLen := len * 8
  msg ++ [0x80] ++ List.replicate zeros 0 ++
    [(bitLen >>> 56) % 256, (bitLen >>> 48) % 256, (bitLen >>> 40) % 256,
     (bitLen >>> 32) % 256, (bitLen >>> 24) % 256, (bitLen >>> 16) % 256,
     (bitLen >>> 8) % 256, bitLen % 256]

/-- Group a padded byte list into big-endian 32-bit words. -/
def bytesToWords : List Nat → List Nat
  | b0 :: b1 :: b2 :: b3 :: rest =>
    (((b0 * 256 + b1) * 256 + b2) * 256 + b3) :: bytesToWords rest
  | _ => []

/-- Split a word list into 16-word blocks (a trailing fragment shorter
than 16 words cannot arise after padding and is dropped). -/
def wordsToBlocks : List Nat → List (List Nat)
  | w0 :: w1 :: w2 :: w3 :: w4 :: w5 :: w6 :: w7 ::
      w8 :: w9 :: w10 :: w11 :: w12 :: w13 :: w14 :: w15 :: rest =>
    [w0, w1, w2, w3, w4, w5, w6, w7, w8, w9, w10, w11, w12, w13, w14, w15]
      :: wordsToBlocks rest
  | _ => []

/-- Message-schedule extension: starting from the 16 block words, append
words 16..63 by `w[i] = ssig1 w[i-2] + w[i-7] + ssig0 w[i-15] + w[i-16]`
modulo `2^32`. -/
def extendSchedule : List Nat → Nat → List Nat
  | ws, 0 => ws
  | ws, steps + 1 =>
    let i := ws.length
    extendSchedule
      (ws ++ [w32 (ssig1 (ws.getD (i - 2) 0) + ws.getD (i - 7) 0 +
        ssig0 (ws.getD (i - 15) 0) + ws.getD (i - 16) 0)]) steps

/-- Working state of the SHA-256 compression function. -/
structure Sha8 where
  a : Nat
  b : Nat
  c : Nat
  d : Nat
  e : Nat
  f : Nat
  g : Nat
  h : Nat
deriving DecidableEq, Repr

/-- One SHA-256 compression round with round constant `k` and schedule
word `w`. -/
def shaRound (st : Sha8) (k w : Nat) : Sha8 :=
  let t1 := w32 (st.h + bsig1 st.e + shaCh st.e st.f st.g + k + w)
  let t2 := w32 (bsig0 st.a + shaMaj st.a st.b st.c)
  ⟨w32 (t1 + t2), st.a, st.b, st.c, w32 (st.d + t1), st.e, st.f, st.g⟩

/-- Compress one 16-word block into the running 8-word hash value. -/
def shaCompress (h : List Nat) (block : List Nat) : List Nat :=
  let ws := extendSchedule block 48
  let st0 : Sha8 :=
    ⟨h.getD 0 0, h.getD 1 0, h.getD 2 0, h.getD 3 0, h.getD 4 0, h.getD 5 0,
     h.getD 6 0, h.getD 7 0⟩
  let st := (shaK.zip ws).foldl (fun st kw => shaRound st kw.1 kw.2) st0
  [w32 (h.getD 0 0 + st.a), w32 (h.getD 1 0 + st.b), w32 (h.getD 2 0 + st.c),
   w32 (h.getD 3 0 + st.d), w32 (h.getD 4 0 + st.e), w32 (h.getD 5 0 + st.f),
   w32 (h.getD 6 0 + st.g), w32 (h.getD 7 0 + st.h)]

/-- Big-endian bytes of a 32-bit word. -/
def wordBytes (w : Nat) : List Nat :=
  [(w >>> 24) % 256, (w >>> 16) % 256, (w >>> 8) % 256, w % 256]

/-- SHA-256 digest of a byte list, as a list of 32 bytes (FIPS 180-4),
modelling Python's `hashlib.sha256(...).digest()`. -/
def sha256 (msg : List Nat) : List Nat :=
  let blocks := wordsToBlocks (bytesToWords (shaPad msg))
  (blocks.foldl shaCompress shaH0).flatMap wordBytes

/-- Big-endian integer value of a byte list, modelling
`int.from_bytes(bytes, byteorder='big')`. -/
def fromBytesBE (bs : List Nat) : Nat :=
  bs.foldl (fun acc b => acc * 256 + b) 0

/-- Daily seed derivation of `fetch_daily_questions.py`, lines 31-36:
the first 8 bytes of `sha256("truthbyte-daily-" + date_str)` read as a
big-endian unsigned integer. -/
def get_daily_seed (date_str : String) : Nat :=
  fromBytesBE ((sha256 (strBytes ("truthbyte-daily-" ++ date_str))).take 8)

/-- Two-digit zero padding used by `strftime('%Y-%m-%d')`. -/
def pad2 (n : Nat) : String :=
  if n < 10 then "0" ++ toString n else toString n

/-- Date formatting `strftime('%Y-%m-%d')` for the years this system
handles (four-digit years). -/
def dateStr (d : Date) : String :=
  toString d.year ++ "-" ++ pad2 d.month ++ "-" ++ pad2 d.day

/-- Question item as read from the questions table
(`fetch_daily_questions.py`; the fields the daily path touches). -/
structure Question where
  id : String
  answer : Bool
  difficulty : Nat
deriving DecidableEq, Repr

/-- Success payload of the daily-questions fetch
(`fetch_daily_questions.py`, lines 166-181). -/
structure FetchOk where
  questions : List Question
  date : String
  daily_progress : Option DayRecord
  current_streak : Nat
  best_streak : Nat
  today_completed : Bool
  total_questions : Nat
deriving DecidableEq, Repr

/-- Outcome of the daily-questions fetch: either the 404
`'Not enough questions available for daily challenge'` rejection
(lines 147-157) or the success payload. -/
inductive FetchResult where
  | insufficientPool
  | ok (payload : FetchOk)
deriving DecidableEq, Repr

/-- Daily-questions fetch, translated from `fetch_daily_questions.py`
lines 124-181: `all_questions` is the eligible pool produced by the
scan, `today` the current UTC date.  If the pool holds fewer than 10
questions the fetch fails with `insufficientPool` and returns no
question set; otherwise 10 questions are drawn by `deterministic_sample`
with the date-derived seed, and the user's progress and streak summary
are attached. -/
def fetch_daily (user : UserRecord) (today : Date) (all_questions : List Question) :
    FetchResult :=
  let date_str := dateStr today
  let daily_progress := user.daily_progress today
  if all_questions.length < 10 then .insufficientPool
  else
    let daily_seed := get_daily_seed date_str
    let daily_questions := deterministic_sample all_questions 10 daily_seed
    let streak_info := calculate_user_streak user today
    .ok
      { questions := daily_questions
        date := date_str
        daily_progress := daily_progress
        current_streak := streak_info.current_streak
        best_streak := streak_info.best_streak
        today_completed := streak_info.today_completed
        total_questions := 10 }

/-- Fresh user record: no progress, zero streak fields, as produced for a
new user. -/
def freshUser : UserRecord :=
  { daily_progress := fun _ => none
    best_daily_streak := 0
    current_daily_streak := 0
    total_daily_games := 0
    last_active := 0 }

/-- Fresh handler state: fresh user, empty answers table. -/
def freshState : SubmitState :=
  { user := freshUser, answers_table := [] }

/-- Ground truth used by the concrete scenarios: one known question `q1`
whose stored correct answer is `true`. -/
def gtOne : String → Option Bool :=
  fun qid => if qid = "q1" then some true else none

/-- Duplicate submission used by the race scenario: one correct answer
for `q1` on 2024-01-15. -/
def reqDup : SubmitReq :=
  { answers := [{ question_id := "q1", answer := true, timestamp := 1000 }]
    date := ⟨2024, 1, 15⟩ }

/-- Five consecutive submission dates 2024-01-01 .. 2024-01-05 of the
specification's streak scenario. -/
def scenarioDates : List Date :=
  [⟨2024, 1, 1⟩, ⟨2024, 1, 2⟩, ⟨2024, 1, 3⟩, ⟨2024, 1, 4⟩, ⟨2024, 1, 5⟩]

/-- State after sequentially submitting one answer on each of
2024-01-01 .. 2024-01-05, starting from a fresh user. -/
def scenarioState : SubmitState :=
  scenarioDates.foldl
    (fun st d =>
      (submit_daily gtOne "user-1" 0
        { answers := [{ question_id := "q1", answer := true, timestamp := 0 }], date := d }
        st).2)
    freshState

/-- Progress map of the month-boundary scenario: completed records on
2024-01-31 and 2024-02-01 only. -/
def boundaryUser : UserRecord :=
  { daily_progress := fun d =>
      if d = ⟨2024, 1, 31⟩ ∨ d = ⟨2024, 2, 1⟩ then
        some { completed := true, score := 100, rank := .S, correct_count := 10
               total_questions := 10, answers := [], completed_at := 0
               streak_eligible := true }
      else none
    best_daily_streak := 0
    current_daily_streak := 0
    total_daily_games := 2
    last_active := 0 }

/-- Ten-question ground truth for the specification's 8-of-10 scenario:
`u1` and `u2` store `false`, every other id stores `true`. -/
def gtTen : String → Option Bool :=
  fun qid => if qid = "u1" ∨ qid = "u2" then some false else some true

/-- Ten answers, all `true`: correct on the eight `a*` questions, wrong on
`u1` and `u2`, giving 8 of 10 correct. -/
def answersTen : List Answer :=
  [⟨"a1", true, 0⟩, ⟨"a2", true, 0⟩, ⟨"a3", true, 0⟩, ⟨"a4", true, 0⟩,
   ⟨"a5", true, 0⟩, ⟨"a6", true, 0⟩, ⟨"a7", true, 0⟩, ⟨"a8", true, 0⟩,
   ⟨"u1", true, 0⟩, ⟨"u2", true, 0⟩]

/-! Helper lemmas. -/

/-- Shifting the accumulator of the correct-count fold adds to the
result. -/
theorem countCorrect_shift (qd : String → Option Bool) (l : List Answer) (n : Nat) :
    l.foldl (fun acc a => if a.answer = (qd a.question_id).getD false then acc + 1 else acc) n
      = n + countCorrect l qd := by
  induction l generalizing n with
  | nil => simp [countCorrect]
  | cons a t ih =>
    simp only [countCorrect, List.foldl_cons] at ih ⊢
    by_cases h : a.answer = (qd a.question_id).getD false
    · simp only [h, if_true]
      rw [ih, ih 1]
      omega
    · simp only [h, if_false]
      rw [ih]

/-- Correct count of a cons. -/
theorem countCorrect_cons (qd : String → Option Bool) (a : Answer) (l : List Answer) :
    countCorrect (a :: l) qd
      = (if a.answer = (qd a.question_id).getD false then 1 else 0) + countCorrect l qd := by
  by_cases h : a.answer = (qd a.question_id).getD false <;>
    simp only [countCorrect, List.foldl_cons, h, if_true, if_false] <;>
    rw [countCorrect_shift] <;> simp [countCorrect]

/-- Correct count distributes over append. -/
theorem countCorrect_append (qd : String → Option Bool) (l₁ l₂ : List Answer) :
    countCorrect (l₁ ++ l₂) qd = countCorrect l₁ qd + countCorrect l₂ qd := by
  simp only [countCorrect, List.foldl_append]
  rw [countCorrect_shift]
  rfl

/-- Fuel irrelevance of the streak walk: any fuel of at least
`366 - count` produces the same value, so `streakCurrent` (fuel `366`,
count `0`) computes the value of the source's unbounded `while True`
loop. -/
theorem streakLoop_fuel_congr (cOn : Date → Bool) :
    ∀ (fuel₁ fuel₂ : Nat) (d : Date) (count : Nat), count ≤ 365 →
      366 - count ≤ fuel₁ → 366 - count ≤ fuel₂ →
      streakLoop cOn fuel₁ d count = streakLoop cOn fuel₂ d count := by
  intro fuel₁
  induction fuel₁ with
  | zero => intro fuel₂ d count hc h1 _; omega
  | succ f₁ ih =>
    intro fuel₂ d count hc h1 h2
    match fuel₂ with
    | 0 => omega
    | f₂ + 1 =>
      simp only [streakLoop]
      by_cases hd : cOn d = true
      · simp only [hd, if_true]
        by_cases hcap : count + 1 > 365
        · simp [hcap]
        · have hle : count + 1 ≤ 365 := by omega
          simp only [hcap, if_false]
          exact ih f₂ (prevDay d) (count + 1) hle (by omega) (by omega)
      · simp [hd]

/-- Value of the streak walk on a history with exactly `n` consecutive
completed days ending at `d`: if every one of the `n` days before the
stopping day is completed and the day `n` days back is not, the walk
returns `count + n`. -/
theorem streakLoop_exact (cOn : Date → Bool) :
    ∀ (n count : Nat) (d : Date), count + n ≤ 365 →
      (∀ k, k < n → cOn (subDays k d) = true) → cOn (subDays n d) = false →
      ∀ fuel, n ≤ fuel → streakLoop cOn fuel d count = count + n := by
  intro n
  induction n with
  | zero =>
    intro count d _ _ hstop fuel _
    have hd : cOn d = false := hstop
    match fuel with
    | 0 => rfl
    | f + 1 => simp [streakLoop, hd]
  | succ n ih =>
    intro count d hle hall hstop fuel hfuel
    match fuel with
    | 0 => omega
    | f + 1 =>
      have hd : cOn d = true := hall 0 (by omega)
      have hcap : ¬count + 1 > 365 := by omega
      simp only [streakLoop, hd, if_true, hcap, if_false]
      have h1 : count + 1 + n ≤ 365 := by omega
      have h2 : ∀ k, k < n → cOn (subDays k (prevDay d)) = true := by
        intro k hk
        exact hall (k + 1) (by omega)
      have h3 : cOn (subDays n (prevDay d)) = false := hstop
      have := ih (count + 1) (prevDay d) h1 h2 h3 f (by omega)
      omega

/-- Upper bound on the streak walk: the value never exceeds
`count + fuel`. -/
theorem streakLoop_le (cOn : Date → Bool) :
    ∀ (fuel : Nat) (d : Date) (count : Nat), streakLoop cOn fuel d count ≤ count + fuel := by
  intro fuel
  induction fuel with
  | zero => intro d count; simp [streakLoop]
  | succ f ih =>
    intro d count
    simp only [streakLoop]
    by_cases hd : cOn d = true
    · simp only [hd, if_true]
      by_cases hcap : count + 1 > 365
      · simp only [hcap, if_true]; omega
      · simp only [hcap, if_false]
        have := ih (prevDay d) (count + 1)
        omega
    · simp [hd]

/-- Streak value of an `n`-day run, at the top level of the walk. -/
theorem streakCurrent_exact (cOn : Date → Bool) (today : Date) (n : Nat) (hn : n ≤ 365)
    (hall : ∀ k, k < n → cOn (subDays k today) = true)
    (hstop : cOn (subDays n today) = false) :
    streakCurrent cOn today = n := by
  have := streakLoop_exact cOn n 0 today (by omega) hall hstop 366 (by omega)
  simpa [streakCurrent] using this

/-- The element at index `j` consed onto the list with index `j` erased is
a permutation of the original list. -/
theorem cons_get_eraseIdx_perm {α : Type} :
    ∀ (l : List α) (j : Nat) (h : j < l.length),
      List.Perm (l.get ⟨j, h⟩ :: l.eraseIdx j) l := by
  intro l
  induction l with
  | nil => intro j h; simp at h
  | cons a t ih =>
    intro j h
    match j with
    | 0 => exact List.Perm.refl _
    | j + 1 =>
      have h' : j < t.length := by simpa using h
      show List.Perm (t.get ⟨j, h'⟩ :: a :: t.eraseIdx j) (a :: t)
      exact (List.Perm.swap a (t.get ⟨j, h'⟩) (t.eraseIdx j)).trans ((ih j h').cons a)

/-- Length of the modelled sampler: exactly `min k n` elements. -/
theorem randomSampleAux_length {α : Type} :
    ∀ (k : Nat) (rem : List α) (s : Nat),
      (randomSampleAux k rem s).length = min k rem.length := by
  intro k
  induction k with
  | zero => intro rem s; simp [randomSampleAux]
  | succ k ih =>
    intro rem s
    rw [randomSampleAux]
    split
    · rename_i hlen
      simp [hlen]
    · rename_i m hlen
      have hj : lcgStep s % rem.length < rem.length := Nat.mod_lt _ (by omega)
      simp only [List.length_cons, ih]
      rw [List.length_eraseIdx]
      simp only [hj, if_true]
      omega

/-- The modelled sampler draws without replacement: its output is a
sub-permutation of the remaining pool. -/
theorem randomSampleAux_subperm {α : Type} :
    ∀ (k : Nat) (rem : List α) (s : Nat), List.Subperm (randomSampleAux k rem s) rem := by
  intro k
  induction k with
  | zero => intro rem s; simp [randomSampleAux]
  | succ k ih =>
    intro rem s
    rw [randomSampleAux]
    split
    · exact List.nil_subperm
    · rename_i m hlen
      have hj : lcgStep s % rem.length < rem.length := Nat.mod_lt _ (by omega)
      have step : List.Subperm
          (randomSampleAux k (rem.eraseIdx (lcgStep s % rem.length)) (lcgStep s))
          (rem.eraseIdx (lcgStep s % rem.length)) := ih _ _
      have hcons := (List.subperm_cons (rem.get ⟨lcgStep s % rem.length, hj⟩)).2 step
      exact hcons.trans (cons_get_eraseIdx_perm rem _ hj).subperm

/-- A sub-permutation of a duplicate-free list is duplicate-free. -/
theorem subperm_nodup {α : Type} {l₁ l₂ : List α} (h : List.Subperm l₁ l₂) (nd : l₂.Nodup) :
    l₁.Nodup := by
  obtain ⟨l, hp, hs⟩ := h
  exact hp.nodup (hs.nodup nd)

/-- Every byte of a serialized word is below 256. -/
theorem wordBytes_lt (w : Nat) : ∀ b ∈ wordBytes w, b < 256 := by
  intro b hb
  simp only [wordBytes, List.mem_cons, List.mem_singleton, List.not_mem_nil, or_false] at hb
  rcases hb with h | h | h | h <;> subst h <;> exact Nat.mod_lt _ (by norm_num)

/-- Every byte of a SHA-256 digest is below 256. -/
theorem sha256_bytes_lt (msg : List Nat) : ∀ b ∈ sha256 msg, b < 256 := by
  intro b hb
  simp only [sha256, List.mem_flatMap] at hb
  obtain ⟨w, _, hbw⟩ := hb
  exact wordBytes_lt w b hbw

/-- Big-endian value of a byte list, with accumulator. -/
theorem fromBytesBE_go_lt :
    ∀ (bs : List Nat) (acc : Nat), (∀ b ∈ bs, b < 256) →
      bs.foldl (fun acc b => acc * 256 + b) acc < (acc + 1) * 256 ^ bs.length := by
  intro bs
  induction bs with
  | nil => intro acc _; simp
  | cons b t ih =>
    intro acc h
    have hb : b < 256 := h b (List.mem_cons_self b t)
    have ht : ∀ x ∈ t, x < 256 := fun x hx => h x (List.mem_cons_of_mem b hx)
    have := ih (acc * 256 + b) ht
    calc (b :: t).foldl (fun acc b => acc * 256 + b) acc
        = t.foldl (fun acc b => acc * 256 + b) (acc * 256 + b) := rfl
      _ < (acc * 256 + b + 1) * 256 ^ t.length := this
      _ ≤ ((acc + 1) * 256) * 256 ^ t.length := by nlinarith
      _ = (acc + 1) * 256 ^ (b :: t).length := by
          simp only [List.length_cons, pow_succ]
          ring

/-- Big-endian value of a byte list is below `256 ^ length`. -/
theorem fromBytesBE_lt (bs : List Nat) (h : ∀ b ∈ bs, b < 256) :
    fromBytesBE bs < 256 ^ bs.length := by
  have := fromBytesBE_go_lt bs 0 h
  simpa [fromBytesBE] using this

/-- The derived daily seed always fits an unsigned 64-bit integer. -/
theorem get_daily_seed_lt (date_str : String) : get_daily_seed date_str < 2 ^ 64 := by
  have hlt := fromBytesBE_lt ((sha256 (strBytes ("truthbyte-daily-" ++ date_str))).take 8)
    (fun b hb => sha256_bytes_lt _ b (List.mem_of_mem_take hb))
  have hlen : ((sha256 (strBytes ("truthbyte-daily-" ++ date_str))).take 8).length ≤ 8 := by
    simp [List.length_take]
  calc get_daily_seed date_str
      < 256 ^ ((sha256 (strBytes ("truthbyte-daily-" ++ date_str))).take 8).length := hlt
    _ ≤ 256 ^ 8 := Nat.pow_le_pow_right (by norm_num) hlen
    _ = 2 ^ 64 := by norm_num

/-! Claim theorems. -/

/-- Claim C4: for every answers list and ground-truth map, scoring returns
`pct = correct_count / total * 100` (and `0` when `total == 0`), assigns
rank by the fixed inclusive thresholds `pct == 100 → S`, `pct >= 80 → A`,
`pct >= 70 → B`, `pct >= 60 → C`, else `D`, and sets `streak_eligible`
exactly when `pct >= 70`. -/
theorem claim_C4_scoring (answers : List Answer) (questions_data : String → Option Bool) :
    (calculate_daily_score answers questions_data).correct_count
        = countCorrect answers questions_data ∧
    (calculate_daily_score answers questions_data).total_questions = answers.length ∧
    (calculate_daily_score answers questions_data).score_percentage
        = pctOf (countCorrect answers questions_data) answers.length ∧
    (calculate_daily_score answers questions_data).rank
        = rankOfPct (calculate_daily_score answers questions_data).score_percentage ∧
    ((calculate_daily_score answers questions_data).streak_eligible = true
        ↔ (calculate_daily_score answers questions_data).score_percentage ≥ 70) := by
  refine ⟨rfl, rfl, ?_, ?_, ?_⟩
  · simp only [calculate_daily_score, pctOf]
    rcases Nat.eq_zero_or_pos answers.length with h | h
    · simp [h]
    · have hne : answers.length ≠ 0 := by omega
      simp [h, hne]
  · rfl
  · simp [calculate_daily_score]

/-- Claim C4 witness: the specification's 8-of-10 scenario (8 correct out
of 10 answers) instantiates the scoring theorem; the score is 80, the
rank is the spec-side threshold rank of 80 (A), and the streak
eligibility flag is set. -/
theorem claim_C4_witness :
    (calculate_daily_score answersTen gtTen).score_percentage
        = pctOf (countCorrect answersTen gtTen) answersTen.length ∧
    (calculate_daily_score answersTen gtTen).rank
        = rankOfPct (calculate_daily_score answersTen gtTen).score_percentage ∧
    (calculate_daily_score answersTen gtTen).score_percentage = 80 ∧
    (calculate_daily_score answersTen gtTen).rank = Rank.A ∧
    (calculate_daily_score answersTen gtTen).streak_eligible = true := by
  have hcount : countCorrect answersTen gtTen = 8 := by rfl
  have hlen : answersTen.length = 10 := by rfl
  have hpct : (calculate_daily_score answersTen gtTen).score_percentage = 80 := by
    rw [(claim_C4_scoring answersTen gtTen).2.2.1, hcount, hlen]
    norm_num [pctOf]
  refine ⟨(claim_C4_scoring answersTen gtTen).2.2.1,
    (claim_C4_scoring answersTen gtTen).2.2.2.1, hpct, ?_, ?_⟩
  · rw [(claim_C4_scoring answersTen gtTen).2.2.2.1, hpct]
    norm_num [rankOfPct]
  · refine ((claim_C4_scoring answersTen gtTen).2.2.2.2).mpr ?_
    rw [hpct]
    norm_num

/-- Claim C5 counterexample: an answers list containing a question id
absent from the ground truth, answered `false`, is counted as CORRECT --
`questions_data.get(question_id, {}).get('answer', False)` defaults the
ground truth to `False`, which the submitted `false` matches.  With a
single such answer the score is 100 and the rank is S, so the claim that
an unknown id never contributes to `correct_count` is false at this
input. -/
theorem claim_C5_counterexample :
    (calculate_daily_score [⟨"q-unknown", false, 0⟩] (fun _ => none)).correct_count = 1 ∧
    (calculate_daily_score [⟨"q-unknown", false, 0⟩] (fun _ => none)).score_percentage = 100 ∧
    (calculate_daily_score [⟨"q-unknown", false, 0⟩] (fun _ => none)).rank = Rank.S := by
  refine ⟨by rfl, ?_, ?_⟩ <;> norm_num [calculate_daily_score, countCorrect]

/-- Claim C5 as amended: for every answers list containing a question id
that is not present in the ground-truth map, scoring does not fail: the
unknown id's ground truth defaults to `False`, so that answer contributes
to `correct_count` exactly when the submitted answer is `false`, it still
counts toward the total, and the remaining answers are scored normally. -/
theorem claim_C5_unknown_id_defaults_false (pre post : List Answer) (a : Answer)
    (questions_data : String → Option Bool) (h : questions_data a.question_id = none) :
    countCorrect (pre ++ a :: post) questions_data
        = countCorrect (pre ++ post) questions_data
          + (if a.answer = false then 1 else 0) ∧
    (calculate_daily_score (pre ++ a :: post) questions_data).total_questions
        = (calculate_daily_score (pre ++ post) questions_data).total_questions + 1 := by
  constructor
  · have hgt : (questions_data a.question_id).getD false = false := by simp [h]
    rw [countCorrect_append, countCorrect_cons, countCorrect_append, hgt]
    omega
  · simp [calculate_daily_score]
    omega

/-- Claim C5 witness: instantiation at a two-answer submission whose
second answer targets the unknown id `zz` and is answered `false`:
it contributes one to the correct count. -/
theorem claim_C5_witness :
    gtOne (Answer.mk "zz" false 0).question_id = none ∧
    (countCorrect ([⟨"q1", true, 0⟩] ++ Answer.mk "zz" false 0 :: []) gtOne
        = countCorrect ([⟨"q1", true, 0⟩] ++ []) gtOne
          + (if (Answer.mk "zz" false 0).answer = false then 1 else 0) ∧
     (calculate_daily_score ([⟨"q1", true, 0⟩] ++ Answer.mk "zz" false 0 :: []) gtOne).total_questions
        = (calculate_daily_score ([⟨"q1", true, 0⟩] ++ []) gtOne).total_questions + 1) :=
  ⟨rfl, claim_C5_unknown_id_defaults_false [⟨"q1", true, 0⟩] [] ⟨"zz", false, 0⟩ gtOne rfl⟩

/-- Claim C2: for every user and date whose progress record already has
`completed == true`, an ordinary (non-empty) submission for that date is
rejected with `alreadyCompleted` and the stored state -- the progress
record with its score, rank, answers and `completed_at`, the streak
fields, and the answers table -- is returned unchanged. -/
theorem claim_C2_already_completed_rejected (questions_data : String → Option Bool)
    (user_id : String) (now : Nat) (req : SubmitReq) (st : SubmitState)
    (hne : req.answers.isEmpty = false)
    (hc : completedOn st.user.daily_progress req.date = true) :
    submit_daily questions_data user_id now req st = (.alreadyCompleted, st) := by
  simp [submit_daily, hne, submit_read, submit_write, hc]

/-- Claim C2 witness: a duplicate one-answer submission on 2024-01-31
against a user whose record for that date is completed is rejected and
leaves the state untouched. -/
theorem claim_C2_witness :
    (SubmitReq.mk [⟨"q1", true, 5⟩] ⟨2024, 1, 31⟩).answers.isEmpty = false ∧
    completedOn (SubmitState.mk boundaryUser []).user.daily_progress
        (SubmitReq.mk [⟨"q1", true, 5⟩] ⟨2024, 1, 31⟩).date = true ∧
    submit_daily gtOne "user-1" 0 (SubmitReq.mk [⟨"q1", true, 5⟩] ⟨2024, 1, 31⟩)
        (SubmitState.mk boundaryUser [])
      = (.alreadyCompleted, SubmitState.mk boundaryUser []) :=
  ⟨rfl, rfl,
   claim_C2_already_completed_rejected gtOne "user-1" 0
     (SubmitReq.mk [⟨"q1", true, 5⟩] ⟨2024, 1, 31⟩) (SubmitState.mk boundaryUser []) rfl rfl⟩

/-- Claim C10: a submission whose answers list is empty is rejected as
malformed before scoring, and neither the user record (progress map and
streak fields) nor the answers table is written -- the returned state is
exactly the input state. -/
theorem claim_C10_empty_submission_rejected (questions_data : String → Option Bool)
    (user_id : String) (now : Nat) (req : SubmitReq) (st : SubmitState)
    (h : req.answers = []) :
    submit_daily questions_data user_id now req st = (.noAnswers, st) := by
  simp [submit_daily, h]

/-- Claim C10 witness: an empty submission against the fresh state is
rejected with the state unchanged. -/
theorem claim_C10_witness :
    (SubmitReq.mk [] ⟨2024, 1, 15⟩).answers = ([] : List Answer) ∧
    submit_daily gtOne "user-1" 0 (SubmitReq.mk [] ⟨2024, 1, 15⟩) freshState
      = (.noAnswers, freshState) :=
  ⟨rfl, claim_C10_empty_submission_rejected gtOne "user-1" 0
    (SubmitReq.mk [] ⟨2024, 1, 15⟩) freshState rfl⟩

/-- Claim C8: whenever the eligible pool holds fewer questions than the
required daily count of 10, the fetch fails with the insufficient-pool
error surfaced to the caller and no daily question set is returned. -/
theorem claim_C8_insufficient_pool (user : UserRecord) (today : Date)
    (pool : List Question) (h : pool.length < 10) :
    fetch_daily user today pool = .insufficientPool := by
  simp [fetch_daily, h]

/-- Claim C8 witness: a fetch against an empty pool fails with the
insufficient-pool error. -/
theorem claim_C8_witness :
    ([] : List Question).length < 10 ∧
    fetch_daily freshUser ⟨2024, 6, 1⟩ [] = .insufficientPool :=
  ⟨by norm_num, claim_C8_insufficient_pool freshUser ⟨2024, 6, 1⟩ [] (by norm_num)⟩

/-- Claim C1 (code bug): the completion write is NOT an atomic conditional
write -- `update_item` (lines 260-278) carries no condition expression and
runs after a separate `get_item` (line 166), a read-then-write sequence.
Under the interleaving read-1, read-2, write-1, write-2 of two duplicate
submissions for the same (user, date) against a fresh user, BOTH
invocations return success (each snapshot shows the date uncompleted),
and `total_daily_games` is double-counted to 2 -- the claimed outcome of
exactly one `Ok` and one `AlreadyCompleted` fails at this input. -/
theorem claim_C1_race_double_success :
    (submit_interleaved gtOne "user-1" 0 reqDup reqDup freshState).1.1
        = SubmitResult.ok (calculate_daily_score reqDup.answers gtOne) 1 1 reqDup.date ∧
    (submit_interleaved gtOne "user-1" 0 reqDup reqDup freshState).1.2
        = SubmitResult.ok (calculate_daily_score reqDup.answers gtOne) 1 1 reqDup.date ∧
    (submit_interleaved gtOne "user-1" 0 reqDup reqDup freshState).2.user.total_daily_games
        = 2 := by
  refine ⟨by rfl, by rfl, by rfl⟩

/-- Claim C3: the streak walk starting at `as_of_date` counts exactly the
run of consecutive completed days, stops at the first missing day, and
reports `best = max(existing_best, current)`; the day arithmetic is
correct across month and year boundaries (2024-01-31 and 2024-02-01 both
completed give streak 2 as of 2024-02-01), and a user who submitted on
2024-01-01 through 2024-01-05 and skipped 2024-01-06 has `current = 0`
and `best = 5` as of 2024-01-07. -/
theorem claim_C3_streak_walk :
    (∀ (user : UserRecord) (today : Date) (n : Nat), n ≤ 365 →
      (∀ k, k < n → completedOn user.daily_progress (subDays k today) = true) →
      completedOn user.daily_progress (subDays n today) = false →
      (calculate_user_streak user today).current_streak = n ∧
      (calculate_user_streak user today).best_streak = max user.best_daily_streak n) ∧
    calculate_user_streak boundaryUser ⟨2024, 2, 1⟩
        = { current_streak := 2, best_streak := 2, today_completed := true } ∧
    scenarioState.user.best_daily_streak = 5 ∧
    calculate_user_streak scenarioState.user ⟨2024, 1, 7⟩
        = { current_streak := 0, best_streak := 5, today_completed := false } := by
  refine ⟨?_, by rfl, by rfl, by rfl⟩
  intro user today n hn hall hstop
  have hcur := streakCurrent_exact (completedOn user.daily_progress) today n hn hall hstop
  exact ⟨by simpa [calculate_user_streak] using hcur,
         by simp [calculate_user_streak, hcur]⟩

/-- Claim C3 witness: the month-boundary history instantiates the general
walk theorem with `n = 2` -- 2024-02-01 and 2024-01-31 are completed and
2024-01-30 is not, so the walk returns 2 and best is `max 0 2`. -/
theorem claim_C3_witness :
    (calculate_user_streak boundaryUser ⟨2024, 2, 1⟩).current_streak = 2 ∧
    (calculate_user_streak boundaryUser ⟨2024, 2, 1⟩).best_streak
        = max boundaryUser.best_daily_streak 2 :=
  claim_C3_streak_walk.1 boundaryUser ⟨2024, 2, 1⟩ 2 (by norm_num)
    (by decide) (by rfl)

/-- Claim C9 as amended: the backward streak walk always terminates -- it
is a total function -- and the cap check `count > 365`, tested after each
increment, bounds the walk at 366 examined days, so the returned count
never exceeds 366; hitting the cap stops counting and raises no error. -/
theorem claim_C9_cap_bounds_walk (completed : Date → Bool) (today : Date) :
    streakCurrent completed today ≤ 366 := by
  have := streakLoop_le completed 366 today 0
  simpa [streakCurrent] using this

/-- Claim C9 witness: the cap bound instantiated at the all-completed
history. -/
theorem claim_C9_witness :
    streakCurrent (fun _ => true) ⟨2024, 6, 1⟩ ≤ 366 :=
  claim_C9_cap_bounds_walk (fun _ => true) ⟨2024, 6, 1⟩

set_option maxRecDepth 4000 in
/-- Claim C9 counterexample: on a history in which every day is completed,
the walk starting 2024-06-01 examines 366 days and returns 366 -- the
loop increments to 366 before the `count > 365` test fires -- so the
claimed bound of 365 examined days is exceeded at this input. -/
theorem claim_C9_counterexample :
    streakCurrent (fun _ => true) ⟨2024, 6, 1⟩ = 366 := by rfl

/-- Claim C6: for every pool, every `k` and every seed, the sampler
returns exactly `min k (length pool)` elements drawn without replacement
from the pool (its output is a sub-permutation of the pool, hence
duplicate-free whenever the pool is), and two calls with the same
`(pool, k, seed)` -- same pool ordering -- return identical output. -/
theorem claim_C6_sample_distinct_deterministic {α : Type} (items : List α)
    (sample_size seed : Nat) :
    (deterministic_sample items sample_size seed).length = min sample_size items.length ∧
    List.Subperm (deterministic_sample items sample_size seed) items ∧
    (items.Nodup → (deterministic_sample items sample_size seed).Nodup) ∧
    (∀ (items₂ : List α) (k₂ s₂ : Nat), items = items₂ → sample_size = k₂ → seed = s₂ →
      deterministic_sample items sample_size seed = deterministic_sample items₂ k₂ s₂) := by
  refine ⟨?_, randomSampleAux_subperm _ _ _, ?_, ?_⟩
  · rw [deterministic_sample, randomSampleAux_length]
    omega
  · intro hnd
    exact subperm_nodup (randomSampleAux_subperm _ _ _) hnd
  · intro items₂ k₂ s₂ h1 h2 h3
    rw [h1, h2, h3]

/-- Claim C6 witness: on the four-element pool `[10, 20, 30, 40]` with
`k = 2` and seed 7 the sampler returns 2 elements, a sub-permutation of
the pool, with no duplicates, and repeated calls agree. -/
theorem claim_C6_witness :
    (deterministic_sample [10, 20, 30, 40] 2 7).length = min 2 ([10, 20, 30, 40] : List Nat).length ∧
    List.Subperm (deterministic_sample [10, 20, 30, 40] 2 7) [10, 20, 30, 40] ∧
    (deterministic_sample [10, 20, 30, 40] 2 7).Nodup ∧
    deterministic_sample [10, 20, 30, 40] 2 7 = deterministic_sample [10, 20, 30, 40] 2 7 :=
  ⟨(claim_C6_sample_distinct_deterministic [10, 20, 30, 40] 2 7).1,
   (claim_C6_sample_distinct_deterministic [10, 20, 30, 40] 2 7).2.1,
   (claim_C6_sample_distinct_deterministic [10, 20, 30, 40] 2 7).2.2.1 (by decide),
   (claim_C6_sample_distinct_deterministic [10, 20, 30, 40] 2 7).2.2.2
     [10, 20, 30, 40] 2 7 rfl rfl rfl⟩

set_option maxRecDepth 100000 in
/-- Claim C7: the seed is a pure total function of the date string alone,
equal to the first 8 bytes of the SHA-256 hash of the fixed namespace
string `truthbyte-daily-` concatenated with the date, read as a
big-endian unsigned integer, and it always fits 64 bits, so every
caller, replica and run obtains the identical value; the two concrete
evaluations exhibit distinct seeds for distinct dates. -/
theorem claim_C7_seed_derivation :
    (∀ date_str : String, get_daily_seed date_str
        = fromBytesBE ((sha256 (strBytes ("truthbyte-daily-" ++ date_str))).take 8)) ∧
    (∀ date_str : String, get_daily_seed date_str < 2 ^ 64) ∧
    get_daily_seed "2024-06-01" = 4025717721764920624 ∧
    get_daily_seed "2024-06-02" = 15124388625789985396 := by
  refine ⟨fun _ => rfl, fun d => get_daily_seed_lt d, by rfl, by rfl⟩

/-- Claim C7 witness: the 64-bit bound instantiated at a concrete date
string. -/
theorem claim_C7_witness : get_daily_seed "2024-06-01" < 2 ^ 64 :=
  claim_C7_seed_derivation.2.1 "2024-06-01"
